import Mathlib

/-!
# Learning-Feed-Generator: a shallow embedding for specification checking

This file embeds, in Lean 4, the parts of the `daily_learning` Python package
that the frozen claims speak about:

* `src/daily_learning/content_fetcher.py` — the `Article` record, the
  heuristic free-text parser `_parse_perplexity_response`, and
  `filter_recent_content`;
* `src/daily_learning/summarizer.py` — the response-parsing portion of
  `summarize_article` with its raw-text fallback;
* `src/daily_learning/quiz_generator.py` — `generate_quiz_questions`,
  `generate_flashcards` and `generate_learning_materials`;
* `src/daily_learning/notion_client.py` — the rate-limit call discipline of
  `NotionLearningDatabase` (as event traces) and the schema-adaptive
  property building of `create_learning_entry`;
* `src/daily_learning/scheduler.py` — `_run_with_retry`;
* `src/daily_learning/main.py` — the exit-status logic of `main` /
  `run_daily_generation`.

Modelling conventions:

* Python `datetime` values are modelled as `Int` (seconds); `timedelta(hours=h)`
  is `h * 3600`.  A `datetime` object is always truthy in Python, so the
  truthiness test `if article.published_date` is exactly an `Option.isSome`
  test on the model's `Option Int` field.
* Python strings are Lean `String`s; slicing, `find` and `strip` are modelled
  on the underlying character list (`String.data`), which matches Python's
  code-point indexing.
* Calls into external libraries (`json.loads`, the HTTP clients) are opaque
  from the embedded component's point of view: the surrounding `try/except`
  means a raising call is indistinguishable from an absent result, so such a
  call is modelled as an explicit `Option`-valued argument.
-/

namespace DailyLearning

/-! ## Python string primitives

Python `str` operations used by the sources, modelled on the character list
of a Lean `String` (Python indexes strings by code point, as `List Char`
does). -/

/-- The characters of a string. -/
def chars (s : String) : List Char := s.data

/-- The characters Python's `str.strip()` removes (ASCII whitespace; the
repository's data is ASCII). -/
def isSpaceChar (c : Char) : Bool :=
  c == ' ' || c == '\t' || c == '\n' || c == '\r' || c == '\x0b' || c == '\x0c'

/-- Strip characters satisfying `p` from both ends, as Python
`str.strip(chars)` does. -/
def stripEnds (p : Char → Bool) (cs : List Char) : List Char :=
  ((cs.dropWhile p).reverse.dropWhile p).reverse

/-- Python `line.strip()`. -/
def pyStrip (cs : List Char) : List Char := stripEnds isSpaceChar cs

/-- Python `s.strip('*')`. -/
def pyStripStar (cs : List Char) : List Char := stripEnds (· == '*') cs

/-- Python `s.split(sep, 1)[-1]`: the text after the first occurrence of
`sep`, or the whole text when `sep` does not occur. -/
def afterFirstSep (sep : Char) (cs : List Char) : List Char :=
  match cs.dropWhile (fun c => !(c == sep)) with
  | [] => cs
  | _ :: rest => rest

/-- Python `content.split(sep)` for a one-character separator: no collapsing
of empty fields, and the empty string splits to `[""]`. -/
def splitOnChar (sep : Char) : List Char → List (List Char)
  | [] => [[]]
  | c :: rest =>
    if c == sep then [] :: splitOnChar sep rest
    else
      match splitOnChar sep rest with
      | [] => [[c]]
      | l :: ls => (c :: l) :: ls

/-- Python `s[:n]` on a string. -/
def pyTake (s : String) (n : Nat) : String := String.mk (s.data.take n)

/-- `Article` from `content_fetcher.py`: title, url, content, source,
optional published timestamp, topic. -/
structure Article where
  title : String
  url : String
  content : String
  source : String
  published_date : Option Int
  topic : String
deriving Repr, DecidableEq

/-! ## `filter_recent_content` (content_fetcher.py lines 193-206)

`cutoff_time = datetime.now() - timedelta(hours=max_age_hours)`; an article is
kept when its `published_date` is set and `>= cutoff_time`, or when it is
unset.  `now` (the wall clock at filter time) is an explicit argument. -/

/-- The keep test of the loop body of `filter_recent_content`. -/
def keepsArticle (cutoff : Int) (a : Article) : Bool :=
  match a.published_date with
  | some d => decide (cutoff ≤ d)
  | none => true

/-- `filter_recent_content(articles, max_age_hours)` with the wall clock
`now` passed explicitly. -/
def filter_recent_content (articles : List Article) (maxAgeHours : Int)
    (now : Int) : List Article :=
  let cutoff := now - maxAgeHours * 3600
  articles.filter (keepsArticle cutoff)

/-! ## `_parse_perplexity_response` (content_fetcher.py lines 97-129)

The heuristic line scanner: each line is stripped; a line starting with
`Title:`/`**Title` (and likewise `URL`, `Summary`, `Source`) stores
`line.split(':', 1)[-1].strip().strip('*')` under the matching key of the
accumulator `current_article`; on a `Source` line, if all four keys are
present an `Article` is appended (with `published_date=datetime.now()`) and
the accumulator is reset.  `datetime.now()` at parse time is the explicit
argument `now`. -/

/-- The accumulator dict `current_article` of the parser: at most one value
per labeled field. -/
structure PartialArticle where
  title : Option (List Char)
  url : Option (List Char)
  content : Option (List Char)
  source : Option (List Char)
deriving Repr, DecidableEq

/-- The empty accumulator (`current_article = {}`). -/
def PartialArticle.empty : PartialArticle := ⟨none, none, none, none⟩

/-- `all(key in current_article for key in ['title','url','content','source'])`. -/
def PartialArticle.complete (st : PartialArticle) : Bool :=
  st.title.isSome && st.url.isSome && st.content.isSome && st.source.isSome

/-- The label test of one `elif` arm:
`line.startswith('Title:') or line.startswith('**Title')`, for each label. -/
def labeledWith (plain starred : String) (l : List Char) : Bool :=
  (chars plain).isPrefixOf l || (chars starred).isPrefixOf l

/-- Which `elif` arm of the scanner a (stripped) line falls into; `other` is
the fall-through that leaves the accumulator unchanged.  The order of tests
matches the source's `if/elif` chain. -/
inductive LineKind where
  | title | url | summary | source | other
deriving Repr, DecidableEq

/-- Classification of a stripped line by the `if/elif` chain. -/
def classifyLine (l : List Char) : LineKind :=
  if labeledWith "Title:" "**Title" l then .title
  else if labeledWith "URL:" "**URL" l then .url
  else if labeledWith "Summary:" "**Summary" l then .summary
  else if labeledWith "Source:" "**Source" l then .source
  else .other

/-- The stored value of a labeled line:
`line.split(':', 1)[-1].strip().strip('*')`. -/
def fieldValue (l : List Char) : List Char :=
  pyStripStar (pyStrip (afterFirstSep ':' l))

/-- The `Article(...)` constructor call of the emission branch. -/
def mkParsedArticle (topic : String) (now : Int) (t u c s : List Char) : Article :=
  { title := String.mk t, url := String.mk u, content := String.mk c,
    source := String.mk s, published_date := some now, topic := topic }

/-- One iteration of the parser's `for line in lines` loop: the new
accumulator and the articles appended by this line. -/
def stepLine (topic : String) (now : Int) (st : PartialArticle) (rawLine : List Char) :
    PartialArticle × List Article :=
  let line := pyStrip rawLine
  match classifyLine line with
  | .title => ({ st with title := some (fieldValue line) }, [])
  | .url => ({ st with url := some (fieldValue line) }, [])
  | .summary => ({ st with content := some (fieldValue line) }, [])
  | .source =>
    let st' := { st with source := some (fieldValue line) }
    if st'.complete then
      (PartialArticle.empty,
        [mkParsedArticle topic now (st'.title.getD []) (st'.url.getD [])
          (st'.content.getD []) (st'.source.getD [])])
    else (st', [])
  | .other => (st, [])

/-- The full loop over the split lines, threading the accumulator. -/
def parseLines (topic : String) (now : Int) : PartialArticle → List (List Char) → List Article
  | _, [] => []
  | st, l :: ls =>
    let out := stepLine topic now st l
    out.2 ++ parseLines topic now out.1 ls

/-- `_parse_perplexity_response(content, topic)`, with `datetime.now()` as
the explicit argument `now`. -/
def parse_perplexity_response (content : String) (topic : String) (now : Int) :
    List Article :=
  parseLines topic now PartialArticle.empty (splitOnChar '\n' (chars content))

/-- A response in which each of the four labeled fields occurs on some line
(the premise of claim C2's emission rule). -/
def mentionsAllFields (content : String) : Bool :=
  let lines := (splitOnChar '\n' (chars content)).map pyStrip
  (lines.any (fun l => classifyLine l == .title)) &&
  (lines.any (fun l => classifyLine l == .url)) &&
  (lines.any (fun l => classifyLine l == .summary)) &&
  (lines.any (fun l => classifyLine l == .source))

/-! ## `summarize_article` (summarizer.py lines 66-153)

`Summary` and the response-parsing portion of `summarize_article`.  The LLM
request itself is external: its response text arrives as an
`Option String` (`none` = the request raised, caught by the outer
`try/except` → `None`).  `json.loads` is external too and is passed in as
`jsonLoads : String → Option SummaryFields` (`none` = `json.JSONDecodeError`);
the structure holds the three keys the code reads with `result.get`. -/

/-- `Summary` from `summarizer.py`. -/
structure Summary where
  original_article : Article
  summary : String
  key_points : List String
  learning_objectives : List String
deriving Repr, DecidableEq

/-- The dict shape `summarize_article` reads from a parsed JSON response:
`result.get("summary", "")`, `result.get("key_points", [])`,
`result.get("learning_objectives", [])`. -/
structure SummaryFields where
  summary : Option String
  key_points : Option (List String)
  learning_objectives : Option (List String)
deriving Repr, DecidableEq

/-- Python `haystack.find(needle)` restricted to found/not-found: the first
index at which `pat` occurs in `cs`, as a character index. -/
def findSub (pat : List Char) : List Char → Option Nat
  | [] => if pat.isEmpty then some 0 else none
  | c :: rest =>
    if pat.isPrefixOf (c :: rest) then some 0
    else (findSub pat rest).map (· + 1)

/-- The fenced-JSON extraction of `summarize_article`: when the response
contains `"```json"`, `start` is just past that marker and `end` the next
"```" found from `start`; the candidate is `content[start:end].strip()` when
`end > start`, and `none` when there is no closing fence or it closes
immediately (`end == start`, or `find` returned `-1 < start`). -/
def fencedCandidate (content : String) : Option (List Char) :=
  let cs := chars content
  match findSub (chars "```json") cs with
  | none => none
  | some i =>
    let start := i + 7
    match findSub (chars "```") (cs.drop start) with
    | none => none
    | some j =>
      if 0 < j then some (pyStrip ((cs.drop start).take j)) else none

/-- Whether the response contains the `"```json"` marker
(`if "```json" in content`). -/
def hasJsonFence (content : String) : Bool :=
  (findSub (chars "```json") (chars content)).isSome

/-- The `Summary(...)` built from a parsed JSON dict. -/
def summaryOfFields (article : Article) (r : SummaryFields) : Summary :=
  { original_article := article
    summary := r.summary.getD ""
    key_points := r.key_points.getD []
    learning_objectives := r.learning_objectives.getD [] }

/-- The raw-text fallback: the whole response, truncated to 500 characters,
becomes the summary; both lists are left empty. -/
def fallbackSummary (article : Article) (content : String) : Summary :=
  { original_article := article
    summary := pyTake content 500
    key_points := []
    learning_objectives := [] }

/-- The response-parsing portion of `summarize_article`: fenced JSON is
tried first when the fence marker is present (falling back on a missing or
empty fence or a parse failure), otherwise the whole response is parsed as
JSON (falling back on failure).  Total: this part of the code raises
nothing. -/
def parseSummaryResponse (jsonLoads : String → Option SummaryFields)
    (article : Article) (content : String) : Summary :=
  if hasJsonFence content then
    match fencedCandidate content with
    | some jsonContent =>
      match jsonLoads (String.mk jsonContent) with
      | some r => summaryOfFields article r
      | none => fallbackSummary article content
    | none => fallbackSummary article content
  else
    match jsonLoads content with
    | some r => summaryOfFields article r
    | none => fallbackSummary article content

/-- `summarize_article`: a raising LLM request (`response = none`) is caught
and yields `None`; otherwise the response text is parsed as above. -/
def summarize_article (jsonLoads : String → Option SummaryFields)
    (article : Article) (response : Option String) : Option Summary :=
  match response with
  | none => none
  | some content => some (parseSummaryResponse jsonLoads article content)

/-! ## `quiz_generator.py`

`QuizQuestion`, `Flashcard`, `LearningMaterials`, and the three generators.
As above, each LLM response is an `Option String` argument and `json.loads`
an `Option`-valued function argument; any raise inside the `try` block
(request error or `json.JSONDecodeError`) is caught and yields `[]`. -/

/-- `QuizQuestion` from `quiz_generator.py`. -/
structure QuizQuestion where
  question : String
  question_type : String
  options : List String
  correct_answer : String
  explanation : String
  difficulty : String
deriving Repr, DecidableEq

/-- `Flashcard` from `quiz_generator.py`. -/
structure Flashcard where
  question : String
  answer : String
  category : String
  difficulty : String
  hint : Option String
deriving Repr, DecidableEq

/-- `LearningMaterials` from `quiz_generator.py`. -/
structure LearningMaterials where
  summary : Summary
  quiz_questions : List QuizQuestion
  flashcards : List Flashcard
deriving Repr, DecidableEq

/-- One entry of the `"questions"` list of a parsed quiz response, with the
optional keys `generate_quiz_questions` reads via `q_data.get`. -/
structure QuizQuestionFields where
  question : Option String
  type : Option String
  options : Option (List String)
  correct_answer : Option String
  explanation : Option String
  difficulty : Option String
deriving Repr, DecidableEq

/-- The dict shape of a parsed quiz response (`result.get("questions", [])`). -/
structure QuizFields where
  questions : Option (List QuizQuestionFields)
deriving Repr, DecidableEq

/-- One entry of the `"flashcards"` list of a parsed flashcard response. -/
structure FlashcardFields where
  question : Option String
  answer : Option String
  category : Option String
  difficulty : Option String
  hint : Option String
deriving Repr, DecidableEq

/-- The dict shape of a parsed flashcard response
(`result.get("flashcards", [])`). -/
structure FlashcardsFields where
  flashcards : Option (List FlashcardFields)
deriving Repr, DecidableEq

/-- The `QuizQuestion(...)` built from one `q_data` dict, with the source's
defaults. -/
def quizQuestionOfFields (q : QuizQuestionFields) : QuizQuestion :=
  { question := q.question.getD ""
    question_type := q.type.getD "short_answer"
    options := q.options.getD []
    correct_answer := q.correct_answer.getD ""
    explanation := q.explanation.getD ""
    difficulty := q.difficulty.getD "medium" }

/-- The `Flashcard(...)` built from one `f_data` dict; the category defaults
to the article's topic and the hint stays optional. -/
def flashcardOfFields (topic : String) (f : FlashcardFields) : Flashcard :=
  { question := f.question.getD ""
    answer := f.answer.getD ""
    category := f.category.getD topic
    difficulty := f.difficulty.getD "medium"
    hint := f.hint }

/-- `generate_quiz_questions`: a raising request or unparsable response is
caught by the `except` arm and yields `[]`. -/
def generate_quiz_questions (jsonLoads : String → Option QuizFields)
    (response : Option String) : List QuizQuestion :=
  match response with
  | none => []
  | some content =>
    match jsonLoads content with
    | none => []
    | some result => (result.questions.getD []).map quizQuestionOfFields

/-- `generate_flashcards`: same error discipline as the quiz sub-call. -/
def generate_flashcards (jsonLoads : String → Option FlashcardsFields)
    (summary : Summary) (response : Option String) : List Flashcard :=
  match response with
  | none => []
  | some content =>
    match jsonLoads content with
    | none => []
    | some result =>
      (result.flashcards.getD []).map
        (flashcardOfFields summary.original_article.topic)

/-- `generate_learning_materials`: the two independent sub-calls, then the
unconditional `LearningMaterials(...)` construction. -/
def generate_learning_materials (quizLoads : String → Option QuizFields)
    (flashLoads : String → Option FlashcardsFields) (summary : Summary)
    (quizResponse flashResponse : Option String) : LearningMaterials :=
  { summary := summary
    quiz_questions := generate_quiz_questions quizLoads quizResponse
    flashcards := generate_flashcards flashLoads summary flashResponse }

/-- The quiz sub-call fails: the request raised, or its response text was
unparsable. -/
def quizCallFails (jsonLoads : String → Option QuizFields)
    (response : Option String) : Prop :=
  response = none ∨ ∃ c, response = some c ∧ jsonLoads c = none

/-- The flashcard sub-call fails: the request raised, or its response text
was unparsable. -/
def flashCallFails (jsonLoads : String → Option FlashcardsFields)
    (response : Option String) : Prop :=
  response = none ∨ ∃ c, response = some c ∧ jsonLoads c = none

/-! ## `notion_client.py`: rate-limit call discipline (lines 24-34 and the
method bodies)

`_rate_limit(min_interval)` sleeps until `min_interval` has elapsed since
`last_request_time`, then stamps the instance.  Each public method of
`NotionLearningDatabase` is abstracted to the sequence of rate-limit waits
and outbound network calls its body performs, in source order. -/

/-- The outbound Notion API calls the adapter makes. -/
inductive NetOp where
  | retrieve   -- `databases.retrieve` (schema probe / connection check)
  | update     -- `databases.update` (schema setup)
  | query      -- `databases.query`
  | pageCreate -- `pages.create`
  | pageUpdate -- `pages.update`
deriving Repr, DecidableEq

/-- One event of a method body: a `_rate_limit()` wait or a network call. -/
inductive CallEvent where
  | wait
  | net (op : NetOp)
deriving Repr, DecidableEq

/-- `verify_database_connection`: `_rate_limit(); databases.retrieve`. -/
def verifyConnectionTrace : List CallEvent := [.wait, .net .retrieve]

/-- `create_database_schema`: `_rate_limit(); databases.update`. -/
def createSchemaTrace : List CallEvent := [.wait, .net .update]

/-- `get_database_schema`: `_rate_limit(); databases.retrieve`. -/
def getSchemaTrace : List CallEvent := [.wait, .net .retrieve]

/-- `create_learning_entry`: `_rate_limit()` at entry, then the schema probe
`get_database_schema()` (which rate-limits itself), then — after the pure
property building — `pages.create` with no further wait. -/
def createEntryTrace : List CallEvent :=
  [.wait] ++ getSchemaTrace ++ [.net .pageCreate]

/-- `query_recent_entries`: `_rate_limit(); databases.query`. -/
def queryRecentTrace : List CallEvent := [.wait, .net .query]

/-- `update_entry_status`: `_rate_limit(); pages.update`. -/
def updateStatusTrace : List CallEvent := [.wait, .net .pageUpdate]

/-- `get_database_stats`: `_rate_limit(); databases.query`. -/
def getStatsTrace : List CallEvent := [.wait, .net .query]

/-- The method bodies of the adapter, as call traces. -/
def adapterTraces : List (List CallEvent) :=
  [verifyConnectionTrace, createSchemaTrace, getSchemaTrace, createEntryTrace,
    queryRecentTrace, updateStatusTrace, getStatsTrace]

/-- `rateLimitGuardedFrom w t`: scanning `t`, every network call is
immediately preceded by a rate-limit wait; `w` records whether a wait
immediately precedes the current position. -/
def rateLimitGuardedFrom : Bool → List CallEvent → Bool
  | _, [] => true
  | _, .wait :: rest => rateLimitGuardedFrom true rest
  | w, .net _ :: rest => w && rateLimitGuardedFrom false rest

/-- A trace in which every network call is immediately preceded by a
rate-limit wait (so the minimum interval is enforced before that call, and
in particular between any two consecutive calls of the trace). -/
def rateLimitGuarded (t : List CallEvent) : Bool :=
  rateLimitGuardedFrom false t

/-- The timing effect of one `_rate_limit(min_interval)` call:
given the stamped `last_request_time` and the wall clock `now`, the method
returns (and stamps) at `max now (last + min_interval)` — it sleeps exactly
`min_interval - (now - last)` when that is positive.  Time is rational
seconds. -/
def rateLimitStamp (lastRequestTime now minInterval : ℚ) : ℚ :=
  if now - lastRequestTime < minInterval
  then now + (minInterval - (now - lastRequestTime))
  else now

/-! ## `create_learning_entry` (notion_client.py lines 165-360): property
building

The probed schema is an association list `field name → declared type`
(first binding wins, as in a Python dict built without duplicates).  The
payload value shapes mirror the JSON fragments the code builds. -/

/-- The probed database schema: `get_database_schema()`'s
`{property name: property type}`. -/
abbrev Schema := List (String × String)

/-- `"F" in schema` / `schema["F"]` for the association-list schema. -/
def schemaType (schema : Schema) (field : String) : Option String :=
  (schema.find? (fun p => p.1 == field)).map (·.2)

/-- `field in schema`. -/
def schemaHas (schema : Schema) (field : String) : Bool :=
  (schemaType schema field).isSome

/-- The JSON value shapes `create_learning_entry` writes. -/
inductive PropValue where
  | titleV (text : String)        -- `{"title": [{"text": {"content": ...}}]}`
  | richTextV (text : String)     -- `{"rich_text": [{"text": {"content": ...}}]}`
  | selectV (name : String)       -- `{"select": {"name": ...}}`
  | multiSelectV (name : String)  -- `{"multi_select": [{"name": ...}]}`
  | statusV (name : String)       -- `{"status": {"name": ...}}`
  | urlV (url : String)           -- `{"url": ...}`
  | dateV (start : String)        -- `{"date": {"start": ...}}`
deriving Repr, DecidableEq

/-- The write payload: the `properties` dict, in insertion order (the
field-name sets of the building steps are pairwise disjoint, so the dict is
an association list). -/
abbrev Properties := List (String × PropValue)

/-- `format_quiz_questions` (lines 113-129), one question's lines. -/
def formatQuizQuestion (i : Nat) (q : QuizQuestion) : List String :=
  ["**Question " ++ toString i ++ ":** " ++ q.question]
  ++ (if q.question_type == "multiple_choice" && !q.options.isEmpty then
        q.options.map (fun o => "  " ++ o)
      else [])
  ++ ["**Answer:** " ++ q.correct_answer,
      "**Explanation:** " ++ q.explanation,
      "**Difficulty:** " ++ q.difficulty,
      ""]

/-- `format_quiz_questions(questions)`: numbered from 1, joined with
newlines. -/
def format_quiz_questions (questions : List QuizQuestion) : String :=
  String.intercalate "\n"
    ((questions.enumFrom 1).flatMap (fun p => formatQuizQuestion p.1 p.2))

/-- `format_flashcards` (lines 131-144), one card's lines (the hint line
only when a hint is present). -/
def formatFlashcard (i : Nat) (card : Flashcard) : List String :=
  ["**Card " ++ toString i ++ ":**",
   "Q: " ++ card.question,
   "A: " ++ card.answer]
  ++ (match card.hint with
      | some h => ["Hint: " ++ h]
      | none => [])
  ++ ["Difficulty: " ++ card.difficulty, ""]

/-- `format_flashcards(flashcards)`: numbered from 1, joined with newlines. -/
def format_flashcards (cards : List Flashcard) : String :=
  String.intercalate "\n"
    ((cards.enumFrom 1).flatMap (fun p => formatFlashcard p.1 p.2))

/-- The `topic_mapping` dict lookup with default `"General"`, applied to
`article.topic.lower()`. -/
def topicName (topic : String) : String :=
  let lowered := String.mk ((chars topic).map Char.toLower)
  if lowered == "artificial intelligence" then "Artificial Intelligence"
  else if lowered == "machine learning" then "Machine Learning"
  else if lowered == "software development" then "Software Development"
  else if lowered == "data science" then "Data Science"
  else "General"

/-- The title step (lines 183-189): `Title` preferred over `Name`; the
content is `article.title[:100]`. -/
def titleProps (schema : Schema) (article : Article) : Properties :=
  if schemaHas schema "Title" || schemaHas schema "Name" then
    let titleProp := if schemaHas schema "Title" then "Title" else "Name"
    [(titleProp, .titleV (pyTake article.title 100))]
  else []

/-- The topic step (lines 191-212): encoded per the declared type of the
`Topic` field; an absent field, or a type other than the three known ones,
adds nothing. -/
def topicProps (schema : Schema) (article : Article) : Properties :=
  match schemaType schema "Topic" with
  | some "select" => [("Topic", .selectV (topicName article.topic))]
  | some "multi_select" => [("Topic", .multiSelectV (topicName article.topic))]
  | some "rich_text" => [("Topic", .richTextV (topicName article.topic))]
  | _ => []

/-- A candidate-list step: the first field of `fields` present in the schema
with declared type `ty` receives `v`; no match adds nothing. -/
def firstMatchProp (schema : Schema) (fields : List String) (ty : String)
    (v : PropValue) : Properties :=
  match fields.find? (fun f => schemaType schema f == some ty) with
  | some f => [(f, v)]
  | none => []

/-- The status step (lines 241-250): encoded per the declared type of
`Status`. -/
def statusProps (schema : Schema) : Properties :=
  match schemaType schema "Status" with
  | some "select" => [("Status", .selectV "New")]
  | some "status" => [("Status", .statusV "New")]
  | some "rich_text" => [("Status", .richTextV "New")]
  | _ => []

/-- The answers step (lines 286-298): only for a `rich_text` field named
exactly `Answers`. -/
def answersProps (schema : Schema) (quizContent flashcardContent : String) :
    Properties :=
  if schemaType schema "Answers" == some "rich_text" then
    [("Answers", .richTextV ("Quiz Answers:\n" ++ quizContent
      ++ "\n\nFlashcard Answers:\n" ++ flashcardContent))]
  else []

/-- `"\n".join(f"• {point}" for point in ...)`. -/
def bulletJoin (items : List String) : String :=
  String.intercalate "\n" (items.map (fun s => "• " ++ s))

/-- The full `properties` dict `create_learning_entry` builds (lines
179-322), steps in source order, `datetime.now().isoformat()` as the
explicit argument `nowIso`. -/
def buildProperties (schema : Schema) (materials : LearningMaterials)
    (nowIso : String) : Properties :=
  let article := materials.summary.original_article
  let summary := materials.summary
  let quizContent := format_quiz_questions materials.quiz_questions
  let flashcardContent := format_flashcards materials.flashcards
  titleProps schema article
  ++ topicProps schema article
  ++ firstMatchProp schema ["Summary", "Notes", "Content"] "rich_text"
      (.richTextV summary.summary)
  ++ firstMatchProp schema ["Source Link", "Source URL", "URL", "Link", "Source"]
      "url" (.urlV article.url)
  ++ firstMatchProp schema ["Date", "Date Added", "Created", "Added"] "date"
      (.dateV nowIso)
  ++ statusProps schema
  ++ firstMatchProp schema ["Priority", "Difficulty"] "select" (.selectV "Medium")
  ++ firstMatchProp schema ["Quiz Questions", "Quiz", "Questions"] "rich_text"
      (.richTextV quizContent)
  ++ firstMatchProp schema ["Flashcards", "Cards", "Flash Cards"] "rich_text"
      (.richTextV flashcardContent)
  ++ answersProps schema quizContent flashcardContent
  ++ firstMatchProp schema ["Key Points", "Key Insights", "Points"] "rich_text"
      (.richTextV (bulletJoin summary.key_points))
  ++ firstMatchProp schema ["Learning Objectives", "Objectives", "Goals"]
      "rich_text" (.richTextV (bulletJoin summary.learning_objectives))

/-- The write `create_learning_entry` issues: `pages.create` is called
unconditionally with the built properties (`some payload`); only the
external call itself can fail afterwards, which the method catches and turns
into `None` — never into a skipped write. -/
def createEntryWritePayload (schema : Schema) (materials : LearningMaterials)
    (nowIso : String) : Option Properties :=
  some (buildProperties schema materials nowIso)

/-! ## `_run_with_retry` (scheduler.py lines 61-87)

`for attempt in range(1, retry_attempts + 1)`: each iteration calls
`run_daily_generation` (whose outcome is either a returned `bool` or a
raised exception, caught by the `except` arm), returns on `True`, and sleeps
`retry_delay_minutes * 60` before the next iteration unless this was the
last one.  The hypothetical outcome of the `k`-th call is supplied as a list
`outs` of length `retry_attempts` (`Except.error` = the call raised); the
method body is abstracted to the sequence of attempts and sleeps it
performs. -/

/-- The outcome of one `run_daily_generation()` call: `.ok b` = returned
`b`, `.error e` = raised. -/
abbrev RunOutcome := Except String Bool

/-- One event of `_run_with_retry`: an attempt (with the success flag the
call reported; a raise counts as not successful) or a sleep of the given
number of seconds. -/
inductive RetryEvent where
  | attempt (success : Bool)
  | sleep (seconds : Nat)
deriving Repr, DecidableEq

/-- Whether an outcome is the `success = True` return that makes
`_run_with_retry` return immediately. -/
def isSuccess (o : RunOutcome) : Bool :=
  match o with
  | .ok true => true
  | _ => false

/-- The event trace of `_run_with_retry`, given the retry delay in seconds
and the outcomes of the successive calls (one per remaining attempt; the
loop runs to exhaustion unless an attempt succeeds, and sleeps only when a
further attempt remains). -/
def runWithRetryTrace (delaySeconds : Nat) : List RunOutcome → List RetryEvent
  | [] => []
  | o :: rest =>
    .attempt (isSuccess o) ::
      if isSuccess o then []
      else (if rest.isEmpty then [] else [.sleep delaySeconds])
        ++ runWithRetryTrace delaySeconds rest

/-- How the `except Exception` arm treats a raised run: identically to a
returned `False` (logged, then the retry logic continues). -/
def swallowRaise (o : RunOutcome) : RunOutcome :=
  match o with
  | .error _ => .ok false
  | .ok b => .ok b

/-- The number of `run_daily_generation` invocations in a trace. -/
def attemptCount (t : List RetryEvent) : Nat :=
  t.countP (fun e => match e with | .attempt _ => true | _ => false)

/-- The number of sleeps in a trace. -/
def sleepCount (t : List RetryEvent) : Nat :=
  t.countP (fun e => match e with | .sleep _ => true | _ => false)

/-! ## `main` / `run_daily_generation` (main.py lines 78-149 and 259-319)

The exit-status logic.  `run_daily_generation` is determined by the sizes of
the successive stage results (or by a raised error, which its `except` arm
turns into `False`); `main` exits `1` when `validate_setup()` fails
(configuration errors, or a failed database-connection check) and otherwise
dispatches on the command, exiting `0` for the `--setup-db` and `--stats`
paths (plain `return`) and `0`/`1` as the run reports success/failure. -/

/-- What `validate_setup` sees: `config.validate()`'s error list and the
result of `verify_database_connection()`. -/
structure SetupState where
  configErrors : List String
  notionConnOk : Bool
deriving Repr, DecidableEq

/-- `validate_setup()`. -/
def validate_setup (s : SetupState) : Bool :=
  s.configErrors.isEmpty && s.notionConnOk

/-- A run of the pipeline body, by stage-result sizes: `raised` when any
step raised (caught by `run_daily_generation`'s `except` arm), otherwise the
number of fetched articles, of articles surviving the recency filter, and
of summaries produced. -/
inductive PipelineRun where
  | raised
  | completed (articles recent summaries : Nat)
deriving Repr, DecidableEq

/-- `run_daily_generation`'s returned bool: `False` on a raise, on zero
articles, or on zero summaries; `True` on zero recent articles ("not an
error, just no new content") and on a completed run. -/
def run_daily_generation (r : PipelineRun) : Bool :=
  match r with
  | .raised => false
  | .completed articles recent summaries =>
    if articles == 0 then false
    else if recent == 0 then true
    else if summaries == 0 then false
    else true

/-- The CLI commands of `main` after setup validation. -/
inductive CliCommand where
  | setupDb | stats | runGen
deriving Repr, DecidableEq

/-- The process exit status of `main`. -/
def mainExitCode (setup : SetupState) (cmd : CliCommand) (run : PipelineRun) :
    Nat :=
  if !validate_setup setup then 1
  else
    match cmd with
    | .setupDb => 0
    | .stats => 0
    | .runGen => if run_daily_generation run then 0 else 1

/-- The number of articles `fetch_content` returned in a run (the quantity
claim C8 ties the exit status to). -/
def articlesFetched (r : PipelineRun) : Nat :=
  match r with
  | .raised => 0
  | .completed articles _ _ => articles

/-! # Theorems -/

/-! ## Claim C3: `filter_recent_content` keeps exactly the undated and the
recent-enough articles -/

/-- C3: for every article list, age threshold and wall clock, an article is
in the output of `filter_recent_content` exactly when it is in the input and
either its published timestamp is absent (retained regardless of age) or its
timestamp is at or after the cutoff `now - maxAgeHours` (inclusive `>=`);
articles strictly older than the cutoff are excluded. -/
theorem filter_recent_keeps_iff (articles : List Article) (maxAgeHours now : Int)
    (a : Article) :
    a ∈ filter_recent_content articles maxAgeHours now ↔
      a ∈ articles ∧ (a.published_date = none ∨
        ∃ d, a.published_date = some d ∧ now - maxAgeHours * 3600 ≤ d) := by
  simp only [filter_recent_content, List.mem_filter, and_congr_right_iff]
  intro _
  cases h : a.published_date with
  | none => simp [keepsArticle, h]
  | some d => simp [keepsArticle, h]

/-! ## Claim C1: rate limiting before every adapter network call -/

/-- C1 (counterexample): `create_learning_entry` is an adapter method body,
and not every network call in it is immediately preceded by a rate-limit
wait — the trace is wait, wait, retrieve (the schema probe), page-create,
with nothing between the probe and the write. -/
theorem create_entry_write_not_rate_limited :
    createEntryTrace ∈ adapterTraces ∧
      rateLimitGuarded createEntryTrace = false := by decide

/-- C1 (amended): a rate-limit wait — which delays until at least
`min_interval` after the previously stamped request, as `rateLimitStamp`
shows — immediately precedes the network call of every adapter method body
except `create_learning_entry`; there, waits precede the schema probe (one
at method entry and one inside `get_database_schema`), but no wait is
performed between the schema probe and the `pages.create` write that
follows it. -/
theorem adapter_rate_limit_discipline :
    (∀ t ∈ adapterTraces, t ≠ createEntryTrace → rateLimitGuarded t = true) ∧
    createEntryTrace
      = [.wait, .wait, .net .retrieve, .net .pageCreate] ∧
    rateLimitGuarded createEntryTrace = false ∧
    (∀ last now m : ℚ, last ≤ now →
      last + m ≤ rateLimitStamp last now m ∧ now ≤ rateLimitStamp last now m) := by
  refine ⟨by decide, by decide, by decide, ?_⟩
  intro last now m h
  unfold rateLimitStamp
  split <;> constructor <;> linarith

/-! ## Claim C8: the CLI exit status -/

/-- C8 (counterexample): with a valid configuration, a working database
connection and one fetched article that survives the filter but yields zero
summaries, `main` exits `1` — while the claim's condition (configuration
errors, or zero articles fetched) is false, so the claimed equivalence fails
at this input. -/
theorem main_exit_nonzero_without_claimed_cause :
    ¬ (mainExitCode ⟨[], true⟩ .runGen (.completed 1 1 0) ≠ 0 ↔
        ((⟨[], true⟩ : SetupState).configErrors ≠ [] ∨
          articlesFetched (.completed 1 1 0) = 0)) := by decide

/-- C8 (amended): `main` exits non-zero exactly when setup validation fails
(a non-empty configuration error list, or a failed database-connection
check), or the command is the generation run and that run raised, fetched
zero articles, or — with a non-empty post-filter list — produced zero
summaries; it exits zero in every other case (both utility commands, and a
run whose recency filter removed everything). -/
theorem main_exit_code_characterization (setup : SetupState) (cmd : CliCommand)
    (run : PipelineRun) :
    mainExitCode setup cmd run ≠ 0 ↔
      (¬ (setup.configErrors = [] ∧ setup.notionConnOk = true) ∨
        (cmd = .runGen ∧ (run = .raised ∨
          ∃ a r s, run = .completed a r s ∧ (a = 0 ∨ (r ≠ 0 ∧ s = 0))))) := by
  obtain ⟨errs, conn⟩ := setup
  by_cases herrs : errs = [] <;> cases conn <;>
    cases cmd <;>
    rcases run with _ | ⟨a, r, s⟩ <;>
    simp [mainExitCode, validate_setup, run_daily_generation, herrs,
      List.isEmpty_iff] <;>
    by_cases ha : a = 0 <;> by_cases hr : r = 0 <;> by_cases hs : s = 0 <;>
    simp [ha, hr, hs] <;>
    exact ⟨_, _, _, ⟨rfl, rfl, rfl⟩, by omega⟩

/-! ## Claim C2: when the free-text parser emits an Article -/

/-- Emission in one loop iteration happens only via the `Source:` arm, and
every emitted article carries `published_date = some now`. -/
theorem stepLine_emission_dated (topic : String) (now : Int)
    (st : PartialArticle) (l : List Char) (a : Article)
    (h : a ∈ (stepLine topic now st l).2) : a.published_date = some now := by
  simp only [stepLine] at h
  cases hcl : classifyLine (pyStrip l) <;> rw [hcl] at h <;>
    simp only [List.mem_singleton, List.not_mem_nil] at h
  case source =>
    split at h <;> simp only [List.mem_singleton, List.not_mem_nil] at h
    subst h
    rfl

/-- C2 (counterexample): a response whose lines mention all four labeled
fields — title, URL, summary and source — from which the parser nevertheless
emits no Article, because the completeness check runs only on `Source:`
lines and here the summary arrives after the source. -/
theorem parser_all_fields_no_emission :
    mentionsAllFields "Title: A\nURL: u\nSource: s\nSummary: c" = true ∧
      parse_perplexity_response "Title: A\nURL: u\nSource: s\nSummary: c" "ai" 0
        = [] := by decide

/-- C2 (amended): the parser's emission check runs only when a source-labeled
line is processed: an iteration emits (exactly one Article, after which the
accumulator resets) precisely when its line is source-labeled and title, URL
and summary have already been accumulated; a response with no source-labeled
line — or with no title-labeled line, starting from a title-less
accumulator — emits nothing, and the parser is total, so no input raises. -/
theorem parser_source_gated_emission (topic : String) (now : Int) :
    (∀ st l, (stepLine topic now st l).2 ≠ [] ↔
        (classifyLine (pyStrip l) = .source ∧ st.title.isSome = true ∧
          st.url.isSome = true ∧ st.content.isSome = true)) ∧
    (∀ st l t u c, classifyLine (pyStrip l) = .source → st.title = some t →
        st.url = some u → st.content = some c →
        stepLine topic now st l = (PartialArticle.empty,
          [mkParsedArticle topic now t u c (fieldValue (pyStrip l))])) ∧
    (∀ st lines, (∀ l ∈ lines, classifyLine (pyStrip l) ≠ .source) →
        parseLines topic now st lines = []) ∧
    (∀ st lines, st.title = none →
        (∀ l ∈ lines, classifyLine (pyStrip l) ≠ .title) →
        parseLines topic now st lines = []) := by
  refine ⟨?_, ?_, ?_, ?_⟩
  · intro st l
    simp only [stepLine]
    cases hcl : classifyLine (pyStrip l) <;>
      simp [hcl, PartialArticle.complete]
    case source =>
      by_cases ht : st.title.isSome <;> by_cases hu : st.url.isSome <;>
        by_cases hc : st.content.isSome <;> simp [ht, hu, hc]
  · intro st l t u c hcl ht hu hc
    simp only [stepLine]
    rw [hcl]
    simp [PartialArticle.complete, ht, hu, hc]
  · intro st lines
    induction lines generalizing st with
    | nil => intro _; rfl
    | cons l ls ih =>
      intro h
      have hl := h l (List.mem_cons_self l ls)
      have hrest : ∀ l' ∈ ls, classifyLine (pyStrip l') ≠ .source :=
        fun l' hm => h l' (List.mem_cons_of_mem l hm)
      unfold parseLines
      simp only [stepLine]
      cases hcl : classifyLine (pyStrip l) <;> simp <;>
        first
          | exact ih _ hrest
          | exact absurd hcl hl
  · intro st lines
    induction lines generalizing st with
    | nil => intro _ _; rfl
    | cons l ls ih =>
      intro hnone h
      have hl := h l (List.mem_cons_self l ls)
      have hrest : ∀ l' ∈ ls, classifyLine (pyStrip l') ≠ .title :=
        fun l' hm => h l' (List.mem_cons_of_mem l hm)
      unfold parseLines
      simp only [stepLine]
      cases hcl : classifyLine (pyStrip l) <;> simp
      case title => exact absurd hcl hl
      case url => exact ih _ hnone hrest
      case summary => exact ih _ hnone hrest
      case source =>
        simp [PartialArticle.complete, hnone]
        first
          | exact ih _ hnone hrest
          | exact ih _ rfl hrest
      case other => exact ih _ hnone hrest

/-! ## Claim C9: parsed articles are dated with the parse-time clock -/

/-- Every article the line loop emits carries `published_date = some now`. -/
theorem parseLines_published (topic : String) (now : Int) :
    ∀ (lines : List (List Char)) (st : PartialArticle) (a : Article),
      a ∈ parseLines topic now st lines → a.published_date = some now := by
  intro lines
  induction lines with
  | nil => intro st a h; simp [parseLines] at h
  | cons l ls ih =>
    intro st a h
    unfold parseLines at h
    rw [List.mem_append] at h
    rcases h with h | h
    · exact stepLine_emission_dated topic now st l a h
    · exact ih _ _ h

/-- C9: every Article emitted by `_parse_perplexity_response` has a present
`published_date`, equal to the wall clock `now` at parse time; consequently,
for any recency filter whose cutoff is at or before that parse-time clock
(a filter applied promptly after fetching), `filter_recent_content` keeps
every parsed article, and its unknown-date branch is never the reason. -/
theorem perplexity_articles_dated_now (content topic : String)
    (now maxAge fnow : Int) (h : fnow - maxAge * 3600 ≤ now) :
    (∀ a ∈ parse_perplexity_response content topic now,
        a.published_date = some now) ∧
    filter_recent_content (parse_perplexity_response content topic now)
        maxAge fnow
      = parse_perplexity_response content topic now := by
  have hdate : ∀ a ∈ parse_perplexity_response content topic now,
      a.published_date = some now :=
    fun a ha => parseLines_published topic now _ _ a ha
  refine ⟨hdate, ?_⟩
  unfold filter_recent_content
  rw [List.filter_eq_self]
  intro a ha
  simp [keepsArticle, hdate a ha]
  omega

/-- C9 (witness): a concrete well-formed response parses to one article,
dated with the parse clock `1000` and untouched by a 48-hour filter run at
that same clock. -/
theorem perplexity_articles_dated_now_witness :
    (∀ a ∈ parse_perplexity_response "Title: T\nURL: u\nSummary: c\nSource: s"
        "ai" 1000, a.published_date = some 1000) ∧
    filter_recent_content
        (parse_perplexity_response "Title: T\nURL: u\nSummary: c\nSource: s"
          "ai" 1000) 48 1000
      = parse_perplexity_response "Title: T\nURL: u\nSummary: c\nSource: s"
          "ai" 1000 :=
  perplexity_articles_dated_now _ _ _ _ _ (by decide)

/-! ## Claim C4: the raw-text fallback of `summarize_article` -/

/-- C4: when the response text is neither valid JSON inside a fenced code
block (every extracted fenced candidate fails to parse, or no usable fence
exists) nor valid raw JSON, `summarize_article` does not raise — it returns
`some` Summary whose summary field is the first 500 characters of the raw
response and whose two lists are empty. -/
theorem summarize_article_fallback (jsonLoads : String → Option SummaryFields)
    (article : Article) (content : String)
    (hfence : ∀ j, fencedCandidate content = some j →
      jsonLoads (String.mk j) = none)
    (hraw : jsonLoads content = none) :
    summarize_article jsonLoads article (some content)
      = some { original_article := article, summary := pyTake content 500,
               key_points := [], learning_objectives := [] } := by
  simp only [summarize_article, parseSummaryResponse]
  by_cases hf : hasJsonFence content = true
  · rw [if_pos hf]
    cases hc : fencedCandidate content with
    | none => rfl
    | some j =>
      simp only [hfence j hc]
      rfl
  · rw [if_neg hf, hraw]
    rfl

/-- C4 (witness): a parser that accepts nothing sends a concrete plain-text
response to the 500-character fallback. -/
theorem summarize_article_fallback_witness :
    summarize_article (fun _ => none) ⟨"t", "u", "c", "s", none, "ai"⟩
        (some "not json at all")
      = some { original_article := ⟨"t", "u", "c", "s", none, "ai"⟩,
               summary := pyTake "not json at all" 500,
               key_points := [], learning_objectives := [] } :=
  summarize_article_fallback (fun _ => none) ⟨"t", "u", "c", "s", none, "ai"⟩
    "not json at all" (fun _ _ => rfl) rfl

/-! ## Claim C5: quiz and flashcard generation degrade independently -/

/-- C5: `generate_learning_materials` always returns a `LearningMaterials`
for the given summary; a failed quiz sub-call (raised request or unparsable
response) degrades `quiz_questions` to `[]` while `flashcards` is still
exactly what the independent flashcard sub-call produced, and vice versa —
neither failure aborts the construction. -/
theorem generate_materials_degrade_independently
    (quizLoads : String → Option QuizFields)
    (flashLoads : String → Option FlashcardsFields) (summary : Summary)
    (quizResponse flashResponse : Option String) :
    (generate_learning_materials quizLoads flashLoads summary quizResponse
        flashResponse).summary = summary ∧
    (quizCallFails quizLoads quizResponse →
      (generate_learning_materials quizLoads flashLoads summary quizResponse
          flashResponse).quiz_questions = [] ∧
      (generate_learning_materials quizLoads flashLoads summary quizResponse
          flashResponse).flashcards
        = generate_flashcards flashLoads summary flashResponse) ∧
    (flashCallFails flashLoads flashResponse →
      (generate_learning_materials quizLoads flashLoads summary quizResponse
          flashResponse).flashcards = [] ∧
      (generate_learning_materials quizLoads flashLoads summary quizResponse
          flashResponse).quiz_questions
        = generate_quiz_questions quizLoads quizResponse) := by
  refine ⟨rfl, fun hq => ⟨?_, rfl⟩, fun hf => ⟨?_, rfl⟩⟩
  · rcases hq with h | ⟨c, hc, hl⟩
    · simp [generate_learning_materials, generate_quiz_questions, h]
    · simp [generate_learning_materials, generate_quiz_questions, hc, hl]
  · rcases hf with h | ⟨c, hc, hl⟩
    · simp [generate_learning_materials, generate_flashcards, h]
    · simp [generate_learning_materials, generate_flashcards, hc, hl]

/-- A concrete instance of the independence in C5: the quiz request raised
while the flashcard response parsed, and the resulting materials still carry
a non-empty flashcard list next to the empty quiz list. -/
theorem generate_materials_failed_quiz_keeps_flashcards :
    (generate_learning_materials (fun _ => none)
        (fun _ => some ⟨some [⟨some "q", some "a", none, none, none⟩]⟩)
        ⟨⟨"t", "u", "c", "s", none, "ai"⟩, "sum", [], []⟩
        none (some "resp")).quiz_questions = [] ∧
    (generate_learning_materials (fun _ => none)
        (fun _ => some ⟨some [⟨some "q", some "a", none, none, none⟩]⟩)
        ⟨⟨"t", "u", "c", "s", none, "ai"⟩, "sum", [], []⟩
        none (some "resp")).flashcards
      = [⟨"q", "a", "ai", "medium", none⟩] := by
  constructor <;> rfl

/-! ## Claims C6 and C10: the schema-adaptive write payload -/

/-- A candidate-list step only ever writes one of its candidate field
names. -/
theorem firstMatchProp_name_mem (schema : Schema) (fields : List String)
    (ty : String) (v : PropValue) :
    ∀ p ∈ firstMatchProp schema fields ty v, p.1 ∈ fields := by
  intro p hp
  unfold firstMatchProp at hp
  cases hf : fields.find? (fun f => schemaType schema f == some ty) with
  | none => rw [hf] at hp; simp at hp
  | some f =>
    rw [hf] at hp
    simp only [List.mem_singleton] at hp
    subst hp
    exact List.mem_of_find?_eq_some hf

/-- The title step only ever writes `Title` or `Name`. -/
theorem titleProps_name (schema : Schema) (article : Article) :
    ∀ p ∈ titleProps schema article, p.1 = "Title" ∨ p.1 = "Name" := by
  intro p hp
  unfold titleProps at hp
  split at hp
  · split at hp <;> simp only [List.mem_singleton] at hp <;> subst hp <;> simp
  · simp at hp

/-- With no `Topic` field in the schema, the topic step contributes
nothing. -/
theorem topicProps_of_absent (schema : Schema) (article : Article)
    (h : schemaType schema "Topic" = none) : topicProps schema article = [] := by
  unfold topicProps
  rw [h]

/-- The status step only ever writes `Status`. -/
theorem statusProps_name (schema : Schema) :
    ∀ p ∈ statusProps schema, p.1 = "Status" := by
  intro p hp
  unfold statusProps at hp
  rcases hty : schemaType schema "Status" with _ | ty
  · rw [hty] at hp; simp at hp
  · rw [hty] at hp
    split at hp <;> simp only [List.mem_singleton, List.not_mem_nil] at hp <;>
      subst hp <;> rfl

/-- The answers step only ever writes `Answers`. -/
theorem answersProps_name (schema : Schema) (q f : String) :
    ∀ p ∈ answersProps schema q f, p.1 = "Answers" := by
  intro p hp
  unfold answersProps at hp
  split at hp <;> simp only [List.mem_singleton, List.not_mem_nil] at hp <;>
    subst hp <;> rfl

/-- C6: when the probed schema has no `Topic` field at all, the write is
still performed — `pages.create` is issued with the built payload — and no
property named `Topic` appears in that payload; the attribute is silently
omitted and the remaining mapped properties are written unchanged. -/
theorem create_entry_omits_absent_topic (schema : Schema)
    (materials : LearningMaterials) (nowIso : String)
    (h : schemaType schema "Topic" = none) :
    createEntryWritePayload schema materials nowIso
      = some (buildProperties schema materials nowIso) ∧
    ∀ p ∈ buildProperties schema materials nowIso, p.1 ≠ "Topic" := by
  refine ⟨rfl, ?_⟩
  intro p hp
  simp only [buildProperties, List.mem_append] at hp
  rcases hp with ((((((((((hp | hp) | hp) | hp) | hp) | hp) | hp) | hp) | hp)
    | hp) | hp) | hp
  · rcases titleProps_name _ _ p hp with he | he <;> rw [he] <;> decide
  · rw [topicProps_of_absent _ _ h] at hp; exact absurd hp (List.not_mem_nil p)
  · have := firstMatchProp_name_mem _ _ _ _ p hp
    intro he; rw [he] at this; revert this; decide
  · have := firstMatchProp_name_mem _ _ _ _ p hp
    intro he; rw [he] at this; revert this; decide
  · have := firstMatchProp_name_mem _ _ _ _ p hp
    intro he; rw [he] at this; revert this; decide
  · rw [statusProps_name _ p hp]; decide
  · have := firstMatchProp_name_mem _ _ _ _ p hp
    intro he; rw [he] at this; revert this; decide
  · have := firstMatchProp_name_mem _ _ _ _ p hp
    intro he; rw [he] at this; revert this; decide
  · have := firstMatchProp_name_mem _ _ _ _ p hp
    intro he; rw [he] at this; revert this; decide
  · rw [answersProps_name _ _ _ p hp]; decide
  · have := firstMatchProp_name_mem _ _ _ _ p hp
    intro he; rw [he] at this; revert this; decide
  · have := firstMatchProp_name_mem _ _ _ _ p hp
    intro he; rw [he] at this; revert this; decide

/-- C6 (witness): the spec's own scenario — a schema holding only `Title`
and `Summary` — still produces a write payload, with no `Topic` property in
it. -/
theorem create_entry_omits_absent_topic_witness :
    createEntryWritePayload [("Title", "title"), ("Summary", "rich_text")]
        ⟨⟨⟨"T", "u", "c", "s", none, "ai"⟩, "sum", [], []⟩, [], []⟩ "2024-01-01"
      = some (buildProperties [("Title", "title"), ("Summary", "rich_text")]
          ⟨⟨⟨"T", "u", "c", "s", none, "ai"⟩, "sum", [], []⟩, [], []⟩
          "2024-01-01") ∧
    ∀ p ∈ buildProperties [("Title", "title"), ("Summary", "rich_text")]
        ⟨⟨⟨"T", "u", "c", "s", none, "ai"⟩, "sum", [], []⟩, [], []⟩ "2024-01-01",
      p.1 ≠ "Topic" :=
  create_entry_omits_absent_topic _ _ _ (by decide)

/-- C10: whenever the schema lets the title be mapped (a `Title` or `Name`
field is present), the payload's title property carries exactly
`article.title[:100]` — the first 100 characters of the title, which is the
whole title when it has at most 100 characters. -/
theorem create_entry_truncates_title (schema : Schema)
    (materials : LearningMaterials) (nowIso : String)
    (h : (schemaHas schema "Title" || schemaHas schema "Name") = true) :
    ∃ f, (f = "Title" ∨ f = "Name") ∧
      (f, PropValue.titleV (pyTake materials.summary.original_article.title 100))
        ∈ buildProperties schema materials nowIso ∧
      chars (pyTake materials.summary.original_article.title 100)
        = (chars materials.summary.original_article.title).take 100 ∧
      ((chars materials.summary.original_article.title).length ≤ 100 →
        pyTake materials.summary.original_article.title 100
          = materials.summary.original_article.title) := by
  have hmem : ∀ q ∈ titleProps schema materials.summary.original_article,
      q ∈ buildProperties schema materials nowIso := by
    intro q hq
    simp only [buildProperties, List.mem_append]
    tauto
  have htrunc : (chars materials.summary.original_article.title).length ≤ 100 →
      pyTake materials.summary.original_article.title 100
        = materials.summary.original_article.title := by
    intro hlen
    have hlen' : materials.summary.original_article.title.data.length ≤ 100 := hlen
    show String.mk (materials.summary.original_article.title.data.take 100) = _
    rw [List.take_of_length_le hlen']
  by_cases ht : schemaHas schema "Title" = true
  · refine ⟨"Title", Or.inl rfl, ?_, rfl, htrunc⟩
    apply hmem
    simp [titleProps, ht]
  · have hn : schemaHas schema "Name" = true := by
      rw [Bool.not_eq_true] at ht
      rw [ht] at h
      simpa using h
    refine ⟨"Name", Or.inr rfl, ?_, rfl, htrunc⟩
    apply hmem
    rw [Bool.not_eq_true] at ht
    simp [titleProps, ht, hn]

/-- C10 (witness): with a `Title` column present, a concrete title is
written unchanged (it is under the 100-character cap). -/
theorem create_entry_truncates_title_witness :
    ∃ f, (f = "Title" ∨ f = "Name") ∧
      (f, PropValue.titleV (pyTake "My Title" 100))
        ∈ buildProperties [("Title", "title")]
            ⟨⟨⟨"My Title", "u", "c", "s", none, "ai"⟩, "sum", [], []⟩, [], []⟩
            "2024-01-01" ∧
      chars (pyTake "My Title" 100) = (chars "My Title").take 100 ∧
      ((chars "My Title").length ≤ 100 → pyTake "My Title" 100 = "My Title") :=
  create_entry_truncates_title [("Title", "title")]
    ⟨⟨⟨"My Title", "u", "c", "s", none, "ai"⟩, "sum", [], []⟩, [], []⟩
    "2024-01-01" (by decide)

/-! ## Claim C7: the scheduler's retry policy -/

/-- Attempt events are not sleep events, and counting them steps through
cons cells as expected. -/
theorem attemptCount_cons_attempt (b : Bool) (t : List RetryEvent) :
    attemptCount (.attempt b :: t) = attemptCount t + 1 := by
  simp [attemptCount, List.countP_cons]

/-- Prepending a sleep leaves the attempt count unchanged. -/
theorem attemptCount_cons_sleep (d : Nat) (t : List RetryEvent) :
    attemptCount (.sleep d :: t) = attemptCount t := by
  simp [attemptCount, List.countP_cons]

/-- Prepending an attempt leaves the sleep count unchanged. -/
theorem sleepCount_cons_attempt (b : Bool) (t : List RetryEvent) :
    sleepCount (.attempt b :: t) = sleepCount t := by
  simp [sleepCount, List.countP_cons]

/-- Prepending a sleep increments the sleep count. -/
theorem sleepCount_cons_sleep (d : Nat) (t : List RetryEvent) :
    sleepCount (.sleep d :: t) = sleepCount t + 1 := by
  simp [sleepCount, List.countP_cons]

/-- The trace of a successful first attempt is that single attempt. -/
theorem runWithRetryTrace_cons_success (delay : Nat) (o : RunOutcome)
    (rest : List RunOutcome) (hs : isSuccess o = true) :
    runWithRetryTrace delay (o :: rest) = [.attempt true] := by
  simp [runWithRetryTrace, hs]

/-- The trace of a failed last attempt is that single attempt: no sleep
follows it. -/
theorem runWithRetryTrace_singleton_failure (delay : Nat) (o : RunOutcome)
    (hs : isSuccess o = false) :
    runWithRetryTrace delay [o] = [.attempt false] := by
  simp [runWithRetryTrace, hs]

/-- The trace of a failed attempt with attempts remaining: the attempt, one
sleep of the configured delay, then the rest. -/
theorem runWithRetryTrace_cons_failure (delay : Nat) (o o' : RunOutcome)
    (rest' : List RunOutcome) (hs : isSuccess o = false) :
    runWithRetryTrace delay (o :: o' :: rest')
      = [RetryEvent.attempt false, .sleep delay]
        ++ runWithRetryTrace delay (o' :: rest') := by
  simp [runWithRetryTrace, hs]

/-- The trace of a nonempty outcome list is nonempty (it opens with the
first attempt). -/
theorem runWithRetryTrace_cons_ne_nil (delay : Nat) (o : RunOutcome)
    (rest : List RunOutcome) : runWithRetryTrace delay (o :: rest) ≠ [] := by
  simp [runWithRetryTrace]

/-- The retry loop runs at most as many attempts as `retry_attempts`
outcomes are available. -/
theorem runWithRetry_attempts_le (delay : Nat) (outs : List RunOutcome) :
    attemptCount (runWithRetryTrace delay outs) ≤ outs.length := by
  induction outs with
  | nil => simp [runWithRetryTrace, attemptCount]
  | cons o rest ih =>
    by_cases hs : isSuccess o = true
    · rw [runWithRetryTrace_cons_success delay o rest hs]
      simp [attemptCount, List.countP_cons]
    · rw [Bool.not_eq_true] at hs
      rcases rest with _ | ⟨o', rest'⟩
      · rw [runWithRetryTrace_singleton_failure delay o hs]
        simp [attemptCount, List.countP_cons]
      · rw [runWithRetryTrace_cons_failure delay o o' rest' hs]
        simp only [List.cons_append, List.nil_append,
          attemptCount_cons_attempt, attemptCount_cons_sleep, List.length_cons]
        simp only [List.length_cons] at ih
        omega

/-- A raised run is treated exactly like a `False` return: swallowing the
exception changes nothing about the trace, so no exception reaches the
scheduler loop. -/
theorem runWithRetry_swallows (delay : Nat) (outs : List RunOutcome) :
    runWithRetryTrace delay (outs.map swallowRaise)
      = runWithRetryTrace delay outs := by
  induction outs with
  | nil => rfl
  | cons o rest ih =>
    have hso : isSuccess (swallowRaise o) = isSuccess o := by
      cases o with
      | error e => rfl
      | ok b => cases b <;> rfl
    simp only [List.map_cons, runWithRetryTrace, hso, ih]
    cases rest <;> simp

/-- Every sleep in the trace lasts the configured delay. -/
theorem runWithRetry_sleep_delay (delay : Nat) (outs : List RunOutcome) :
    ∀ s, RetryEvent.sleep s ∈ runWithRetryTrace delay outs → s = delay := by
  induction outs with
  | nil => intro s h; simp [runWithRetryTrace] at h
  | cons o rest ih =>
    intro s h
    by_cases hs : isSuccess o = true
    · rw [runWithRetryTrace_cons_success delay o rest hs] at h
      simp at h
    · rw [Bool.not_eq_true] at hs
      rcases rest with _ | ⟨o', rest'⟩
      · rw [runWithRetryTrace_singleton_failure delay o hs] at h
        simp at h
      · rw [runWithRetryTrace_cons_failure delay o o' rest' hs] at h
        simp only [List.cons_append, List.nil_append, List.mem_cons] at h
        rcases h with h | h | h
        · exact absurd h (by simp)
        · injection h
        · exact ih s h

/-- A nonempty outcome list yields at least one attempt. -/
theorem runWithRetry_attempts_pos (delay : Nat) (o : RunOutcome)
    (rest : List RunOutcome) :
    1 ≤ attemptCount (runWithRetryTrace delay (o :: rest)) := by
  by_cases hs : isSuccess o = true
  · rw [runWithRetryTrace_cons_success delay o rest hs]
    simp [attemptCount, List.countP_cons]
  · rw [Bool.not_eq_true] at hs
    rcases rest with _ | ⟨o', rest'⟩
    · rw [runWithRetryTrace_singleton_failure delay o hs]
      simp [attemptCount, List.countP_cons]
    · rw [runWithRetryTrace_cons_failure delay o o' rest' hs]
      simp only [List.cons_append, List.nil_append,
        attemptCount_cons_attempt, attemptCount_cons_sleep]
      omega

/-- Sleeps happen exactly between consecutive attempts: one fewer sleep than
attempts. -/
theorem runWithRetry_sleep_count (delay : Nat) (outs : List RunOutcome) :
    sleepCount (runWithRetryTrace delay outs)
      = attemptCount (runWithRetryTrace delay outs) - 1 := by
  induction outs with
  | nil => rfl
  | cons o rest ih =>
    by_cases hs : isSuccess o = true
    · rw [runWithRetryTrace_cons_success delay o rest hs]
      rfl
    · rw [Bool.not_eq_true] at hs
      rcases rest with _ | ⟨o', rest'⟩
      · rw [runWithRetryTrace_singleton_failure delay o hs]
        rfl
      · rw [runWithRetryTrace_cons_failure delay o o' rest' hs]
        simp only [List.cons_append, List.nil_append,
          attemptCount_cons_attempt, attemptCount_cons_sleep,
          sleepCount_cons_attempt, sleepCount_cons_sleep]
        have hpos := runWithRetry_attempts_pos delay o' rest'
        omega

/-- The trace never ends with a sleep: no wait is performed after the final
attempt. -/
theorem runWithRetry_no_trailing_sleep (delay : Nat) (outs : List RunOutcome) :
    ∀ s, (runWithRetryTrace delay outs).getLast? ≠ some (.sleep s) := by
  induction outs with
  | nil => intro s; simp [runWithRetryTrace]
  | cons o rest ih =>
    intro s
    by_cases hs : isSuccess o = true
    · rw [runWithRetryTrace_cons_success delay o rest hs]
      simp
    · rw [Bool.not_eq_true] at hs
      rcases rest with _ | ⟨o', rest'⟩
      · rw [runWithRetryTrace_singleton_failure delay o hs]
        simp
      · rw [runWithRetryTrace_cons_failure delay o o' rest' hs,
          List.getLast?_append]
        cases hL : (runWithRetryTrace delay (o' :: rest')).getLast? with
        | none =>
          exact absurd (List.getLast?_eq_none_iff.mp hL)
            (runWithRetryTrace_cons_ne_nil delay o' rest')
        | some x =>
          rw [Option.or_some]
          intro hcon
          rw [Option.some.injEq] at hcon
          exact ih s (by rw [← hcon]; exact hL)

/-- `_run_with_retry` returns immediately after the first successful
attempt: the outcomes after it are never consulted, and the number of
attempts is the position of the first success. -/
theorem runWithRetry_first_success (delay : Nat) :
    ∀ (pre : List RunOutcome) (o : RunOutcome) (post : List RunOutcome),
      (∀ x ∈ pre, isSuccess x = false) → isSuccess o = true →
      runWithRetryTrace delay (pre ++ o :: post)
        = runWithRetryTrace delay (pre ++ [o]) ∧
      attemptCount (runWithRetryTrace delay (pre ++ o :: post))
        = pre.length + 1 := by
  intro pre
  induction pre with
  | nil =>
    intro o post _ hs
    rw [List.nil_append, List.nil_append,
      runWithRetryTrace_cons_success delay o post hs,
      runWithRetryTrace_cons_success delay o [] hs]
    simp [attemptCount, List.countP_cons]
  | cons x pre' ih =>
    intro o post hpre hs
    have hx : isSuccess x = false := hpre x (List.mem_cons_self x pre')
    have hpre' : ∀ y ∈ pre', isSuccess y = false :=
      fun y hy => hpre y (List.mem_cons_of_mem x hy)
    have h1 := ih o post hpre' hs
    rcases pre' with _ | ⟨z, pre''⟩
    · simp only [List.cons_append, List.nil_append]
      rw [runWithRetryTrace_cons_failure delay x o post hx,
        runWithRetryTrace_cons_failure delay x o [] hx,
        runWithRetryTrace_cons_success delay o post hs,
        runWithRetryTrace_cons_success delay o [] hs]
      simp [attemptCount, List.countP_cons, List.countP_append]
    · simp only [List.cons_append] at h1 ⊢
      rw [runWithRetryTrace_cons_failure delay x z (pre'' ++ o :: post) hx,
        runWithRetryTrace_cons_failure delay x z (pre'' ++ [o]) hx, h1.1]
      refine ⟨rfl, ?_⟩
      have h2 : attemptCount (runWithRetryTrace delay (z :: (pre'' ++ [o])))
          = pre''.length + 2 := by
        rw [← h1.1]
        simpa [List.length_cons] using h1.2
      simp only [List.cons_append, List.nil_append, attemptCount_cons_attempt,
        attemptCount_cons_sleep, List.length_cons, h2]

/-- C7: per scheduled trigger, `_run_with_retry` invokes the pipeline at
most `retry_attempts` times, returns right after the first attempt that
reports success (its attempt count is the success's position, and nothing
after it is consulted), sleeps the configured delay exactly between
consecutive attempts — one sleep fewer than attempts, never as the last
event — and treats a raised run exactly like a failed one, so no exception
propagates into the scheduler loop. -/
theorem run_with_retry_policy (delay : Nat) (outs : List RunOutcome) :
    attemptCount (runWithRetryTrace delay outs) ≤ outs.length ∧
    runWithRetryTrace delay (outs.map swallowRaise)
      = runWithRetryTrace delay outs ∧
    (∀ s, RetryEvent.sleep s ∈ runWithRetryTrace delay outs → s = delay) ∧
    sleepCount (runWithRetryTrace delay outs)
      = attemptCount (runWithRetryTrace delay outs) - 1 ∧
    (∀ s, (runWithRetryTrace delay outs).getLast? ≠ some (.sleep s)) ∧
    (∀ pre o post, outs = pre ++ o :: post →
      (∀ x ∈ pre, isSuccess x = false) → isSuccess o = true →
      runWithRetryTrace delay outs = runWithRetryTrace delay (pre ++ [o]) ∧
      attemptCount (runWithRetryTrace delay outs) = pre.length + 1) :=
  ⟨runWithRetry_attempts_le delay outs,
   runWithRetry_swallows delay outs,
   runWithRetry_sleep_delay delay outs,
   runWithRetry_sleep_count delay outs,
   runWithRetry_no_trailing_sleep delay outs,
   fun pre o post heq hpre hs =>
     heq ▸ runWithRetry_first_success delay pre o post hpre hs⟩

end DailyLearning
